import Mathlib

/-!
Shallow embedding of the opsdroid Signal connector (`__init__.py`).

The connector decodes JSON packets pushed by a signal-cli-rest-api bridge
into opsdroid events and serialises outgoing opsdroid events into HTTP
requests.  Python dictionaries and JSON values are modelled by the `Json`
type below; Python's exception behaviour (`KeyError` on `d[k]`,
`TypeError` on indexing a non-dict, `AttributeError` on `.get`/`.encode`
of a non-dict/non-str, `IndexError` on `[0]` of an empty list) is modelled
with `Except PyErr`.  The only caught exception class in the source is
`KeyError`, so every other error propagates to the caller.
-/

/-- Python exception classes the connector's code can raise. -/
inductive PyErr where
  | keyError (k : String)
  | typeError
  | attributeError
  | indexError
  | unicodeEncodeError
deriving Repr, DecidableEq

/-- A JSON value as produced by `resp.json()` / `msg.json()`.  Numbers are
modelled as integers (the fields the connector reads — timestamps — are
integral); objects keep their key order, as Python dicts do. -/
inductive Json where
  | null
  | bool (b : Bool)
  | num (n : Int)
  | str (s : String)
  | arr (elems : List Json)
  | obj (kvs : List (String × Json))
deriving Repr

/-- First value bound to key `k` in an association list (Python dicts have
unique keys, so first = only). -/
def lookupKV (kvs : List (String × Json)) (k : String) : Option Json :=
  match kvs.find? (fun kv => kv.1 = k) with
  | some kv => some kv.2
  | none => none

/-- Python `d.get(k)` on a dict, with `None` (null) for a missing key. -/
def lookupKVD (kvs : List (String × Json)) (k : String) : Json :=
  match lookupKV kvs k with
  | some v => v
  | none => Json.null

/-- Python `d[k]`: `KeyError` when the key is missing, `TypeError` when the
value is not a dict (none of the JSON types other than dict support string
indexing). -/
def Json.index (j : Json) (k : String) : Except PyErr Json :=
  match j with
  | .obj kvs =>
    match lookupKV kvs k with
    | some v => .ok v
    | none => .error (.keyError k)
  | _ => .error .typeError

/-- Python `d.get(k)`: `None` when the key is missing, `AttributeError` when
the value is not a dict (no JSON type other than dict has `.get`). -/
def Json.pyGet (j : Json) (k : String) : Except PyErr Json :=
  match j with
  | .obj kvs =>
    match lookupKV kvs k with
    | some v => .ok v
    | none => .ok .null
  | _ => .error .attributeError

/-- Python truthiness of a JSON value. -/
def Json.truthy : Json → Bool
  | .null => false
  | .bool b => b
  | .num n => n != 0
  | .str s => s != ""
  | .arr xs => !xs.isEmpty
  | .obj kvs => !kvs.isEmpty

/-- Python `for x in j`: lists yield their elements, dicts their keys,
strings their characters; other JSON values are not iterable. -/
def Json.pyIter : Json → Except PyErr (List Json)
  | .arr xs => .ok xs
  | .obj kvs => .ok (kvs.map (fun kv => .str kv.1))
  | .str s => .ok (s.toList.map (fun c => .str (String.singleton c)))
  | _ => .error .typeError

/-- Python `j == s` for a string literal `s`: only a string with the same
characters compares equal (Python equality across JSON types is false
except bool/int, which the connector never compares to strings). -/
def jsonStrEq (j : Json) (s : String) : Bool :=
  match j with
  | .str t => t == s
  | _ => false

/-- A single-quote character, as Python repr writes around strings. -/
def singleQuote : String := String.singleton (Char.ofNat 39)

mutual
/-- Python `str(...)` of a JSON value, as used by the attachment-URL
f-string: strings render bare, ints in decimal, booleans `True`/`False`,
`None` for null, containers by their `repr`. -/
def Json.pyStr : Json → String
  | .str s => s
  | j => Json.pyRepr j

/-- Python `repr(...)` of a JSON value (string escaping inside quotes is
not reproduced; no claim inspects repr output of nested containers). -/
def Json.pyRepr : Json → String
  | .null => "None"
  | .bool true => "True"
  | .bool false => "False"
  | .num n => toString n
  | .str s => singleQuote ++ s ++ singleQuote
  | .arr xs => "[" ++ Json.pyReprList xs ++ "]"
  | .obj kvs => "\x7b" ++ Json.pyReprKVs kvs ++ "\x7d"

def Json.pyReprList : List Json → String
  | [] => ""
  | [x] => Json.pyRepr x
  | x :: y :: rest => Json.pyRepr x ++ ", " ++ Json.pyReprList (y :: rest)

def Json.pyReprKVs : List (String × Json) → String
  | [] => ""
  | [kv] => singleQuote ++ kv.1 ++ singleQuote ++ ": " ++ Json.pyRepr kv.2
  | kv :: kv2 :: rest =>
    singleQuote ++ kv.1 ++ singleQuote ++ ": " ++ Json.pyRepr kv.2 ++ ", "
      ++ Json.pyReprKVs (kv2 :: rest)
end

/-! ## base64 and percent-encoding (`base64.b64encode`, `urllib.parse.quote`) -/

/-- The standard base64 alphabet character for a 6-bit value. -/
def b64char (n : Nat) : Char :=
  "ABCDEFGHIJKLMNOPQRSTUVWXYZabcdefghijklmnopqrstuvwxyz0123456789+/".toList.getD n 'A'

/-- `base64.b64encode` over a list of byte values: 3-byte groups become 4
alphabet characters; a 1- or 2-byte tail is padded with `=`. -/
def b64encode : List Nat → String
  | a :: b :: c :: rest =>
    let w := a % 256 * 65536 + b % 256 * 256 + c % 256
    String.mk [b64char (w / 262144), b64char (w / 4096 % 64),
               b64char (w / 64 % 64), b64char (w % 64)] ++ b64encode rest
  | [a, b] =>
    let w := a % 256 * 65536 + b % 256 * 256
    String.mk [b64char (w / 262144), b64char (w / 4096 % 64), b64char (w / 64 % 64), '=']
  | [a] =>
    let w := a % 256 * 65536
    String.mk [b64char (w / 262144), b64char (w / 4096 % 64), '=', '=']
  | [] => ""

/-- One hexadecimal digit, uppercase, as `urllib.parse.quote` writes it. -/
def hexDigit (n : Nat) : Char := "0123456789ABCDEF".toList.getD n '0'

/-- `urllib.parse.quote` of one byte: unreserved characters (letters,
digits, `_ . - ~`) and the default-safe `/` pass through, everything else
becomes `%XX`. -/
def quoteByte (b : Nat) : String :=
  if (65 ≤ b ∧ b ≤ 90) ∨ (97 ≤ b ∧ b ≤ 122) ∨ (48 ≤ b ∧ b ≤ 57) ∨
     b = 95 ∨ b = 46 ∨ b = 45 ∨ b = 126 ∨ b = 47
  then String.singleton (Char.ofNat b)
  else String.mk ['%', hexDigit (b / 16), hexDigit (b % 16)]

/-- `urllib.parse.quote(s)` over the UTF-8 bytes of `s`. -/
def pyQuote (s : String) : String :=
  String.join (s.toUTF8.toList.map (fun b => quoteByte b.toNat))

/-! ## `encode_group_id` -/

/-- `encode_group_id(group_id)`: `"group." + b64encode(group_id.encode("ascii"))`.
`.encode("ascii")` is an `AttributeError` on a non-string and a
`UnicodeEncodeError` on non-ASCII characters; neither is caught anywhere. -/
def encode_group_id (group_id : Json) : Except PyErr String :=
  match group_id with
  | .str s =>
    if s.toList.all (fun c => c.toNat < 128)
    then .ok ("group." ++ b64encode (s.toList.map Char.toNat))
    else .error .unicodeEncodeError
  | _ => .error .attributeError

/-! ## Python dict helpers for the configured tables (string keys/values) -/

/-- `d.get(k, default)` on a string-keyed, string-valued dict. -/
def dictGet (d : List (String × String)) (k default : String) : String :=
  match d.find? (fun kv => kv.1 = k) with
  | some kv => kv.2
  | none => default

/-- `d[k] = v` on a dict: replace in place when the key exists (keeping its
position, as Python dicts do), append otherwise. -/
def dictInsert (d : List (String × String)) (k v : String) : List (String × String) :=
  if d.any (fun kv => kv.1 = k) then d.map (fun kv => if kv.1 = k then (k, v) else kv)
  else d ++ [(k, v)]

/-- `{v: k for k, v in rooms.items()}`: the reverse alias table; when two
aliases map to one address the later one overwrites the earlier. -/
def invRooms (rooms : List (String × String)) : List (String × String) :=
  rooms.foldl (fun d kv => dictInsert d kv.2 kv.1) []

/-! ## The connector and its construction -/

/-- The configuration keys the connector consumes (`config[...]` in
`__init__`); required keys are modelled as present, since a missing one
fails construction before any claim's code path is reachable. -/
structure SignalConfig where
  /-- scheme and authority of `config["url"]`; `make_url` swaps in the path. -/
  baseUrl : String
  botNumber : String
  rooms : List (String × String)
  whitelistedNumbers : List String
  pollInterval : Option Int

/-- The fields `ConnectorSignal.__init__` stores on `self`.  The whitelist
frozenset is modelled by its membership list. -/
structure ConnectorSignal where
  baseUrl : String
  number : String
  rooms : List (String × String)
  whitelist : List String
  inv_rooms : List (String × String)
  pollInterval : Option Int

/-- `ConnectorSignal.__init__`: resolve each whitelisted entry through the
rooms table (`self.rooms.get(v, v)`) and build the reverse rooms table. -/
def ConnectorSignal.init (c : SignalConfig) : ConnectorSignal :=
  { baseUrl := c.baseUrl
    number := c.botNumber
    rooms := c.rooms
    whitelist := c.whitelistedNumbers.map (fun v => dictGet c.rooms v v)
    inv_rooms := invRooms c.rooms
    pollInterval := c.pollInterval }

/-- `make_url(path_format)`: substitute the percent-quoted number for the
placeholder and attach the path to the configured base URL
(`urlparse(url)._replace(path=path).geturl()`). -/
def ConnectorSignal.make_url (self : ConnectorSignal) (pathFormat : String) : String :=
  self.baseUrl ++ pathFormat.replace "{number}" (pyQuote self.number)

/-- `lookup_target(target)`: `self.rooms.get(target, target)` — room alias
to Signal phone number or group id. -/
def ConnectorSignal.lookup_target (self : ConnectorSignal) (target : String) : String :=
  dictGet self.rooms target target

/-- The inline `self.inv_rooms.get(target, target)` of the decode path:
only a string can be a key of the (string-keyed) reverse table, any other
JSON value passes through unchanged. -/
def ConnectorSignal.lookup_inv (self : ConnectorSignal) (target : Json) : Json :=
  match target with
  | .str s => .str (dictGet self.inv_rooms s s)
  | _ => target

/-- The inline whitelist rejection test of `parse_packet`:
`self.whitelist and args["user_id"] not in self.whitelist`. -/
def ConnectorSignal.whitelistRejects (self : ConnectorSignal) (user_id : Json) : Bool :=
  !self.whitelist.isEmpty && !(self.whitelist.any (fun s => jsonStrEq user_id s))

/-! ## Normalized events -/

/-- The `args` dict built in `parse_packet` and passed to every event
constructor (`connector=self` is implicit; `raw_event` is the whole
packet). -/
structure EventArgs where
  user_id : Json
  user : Json
  event_id : Json
  raw_event : Json
deriving Repr

/-- The opsdroid events the connector constructs, with the fields it sets.
For `reaction`, `linkedUserId`/`linkedEventId` are the fields of the nested
`opsdroid.events.Event` built in `parse_reaction` (its `target` equals the
outer event's `target`). -/
inductive NEvent where
  | message (text : Json) (args : EventArgs) (target : Json)
  | reaction (emoji : Json) (linkedUserId : Json) (linkedEventId : Json)
      (args : EventArgs) (target : Json)
  | typing (trigger : Bool) (timeout : Int) (args : EventArgs) (target : Json)
  | image (url : String) (name : Json) (mimetype : Json) (args : EventArgs) (target : Json)
  | video (url : String) (name : Json) (mimetype : Json) (args : EventArgs) (target : Json)
  | file (url : String) (name : Json) (mimetype : Json) (args : EventArgs) (target : Json)
deriving Repr

/-- The media kind of an attachment event, `none` for non-media events. -/
inductive MediaKind where
  | image
  | video
  | file
deriving Repr, DecidableEq

def NEvent.mediaKind : NEvent → Option MediaKind
  | .image _ _ _ _ _ => some .image
  | .video _ _ _ _ _ => some .video
  | .file _ _ _ _ _ => some .file
  | _ => none

def NEvent.isTyping : NEvent → Bool
  | .typing _ _ _ _ => true
  | _ => false

def NEvent.triggerOf : NEvent → Option Bool
  | .typing t _ _ _ => some t
  | _ => none

def NEvent.timeoutOf : NEvent → Option Int
  | .typing _ n _ _ => some n
  | _ => none

/-! ## The decode pipeline (`parse_packet` and helpers)

Each `parse_*` coroutine of the source emits events with
`await self.opsdroid.parse(event)`; the embedding returns the list of
emitted events in emission order, or the uncaught exception. -/

/-- `parse_reaction(reaction, args)`: `reaction["emoji"]` is only read when
`isRemove` is falsy, and `targetAuthorNumber` / `targetSentTimestamp` are
always read with `[...]`, so a missing one raises an uncaught `KeyError`. -/
def ConnectorSignal.parse_reaction (_self : ConnectorSignal) (reaction : Json)
    (args : EventArgs) (target : Json) : Except PyErr NEvent := do
  let isRemove ← reaction.pyGet "isRemove"
  let emoji ← if isRemove.truthy then pure (Json.str "") else reaction.index "emoji"
  let targetAuthor ← reaction.index "targetAuthorNumber"
  let targetSent ← reaction.index "targetSentTimestamp"
  pure (.reaction emoji targetAuthor targetSent args target)

/-- `parse_text(text, args)`. -/
def ConnectorSignal.parse_text (text : Json) (args : EventArgs) (target : Json) : NEvent :=
  .message text args target

/-- Python `s.split("/")[0]`: the prefix of `s` up to (excluding) its
first `/`; the whole of `s` when it has no `/`.  (`split` with a nonempty
separator never returns an empty list, so the `[0]` cannot fail.) -/
def splitSlashHead (s : String) : String :=
  String.mk (s.toList.takeWhile (fun c => c ≠ '/'))

/-- `parse_attachment(attachment, args)`: the URL f-string reads
`attachment["id"]` (uncaught `KeyError` when missing); the event class is
chosen by `(mimetype or "").split("/")[0]`. -/
def ConnectorSignal.parse_attachment (self : ConnectorSignal) (attachment : Json)
    (args : EventArgs) (target : Json) : Except PyErr NEvent := do
  let idv ← attachment.index "id"
  let url := self.make_url ("v1/attachments/" ++ idv.pyStr)
  let name ← attachment.pyGet "filename"
  let mimetype ← attachment.pyGet "contentType"
  let base := if mimetype.truthy then mimetype else Json.str ""
  let file_type ← match base with
    | .str s => pure (splitSlashHead s)
    | _ => Except.error .attributeError
  let mk := if file_type = "image" then NEvent.image
            else if file_type = "video" then NEvent.video
            else NEvent.file
  pure (mk url name mimetype args target)

/-- `parse_data_message(data_message, args)`: the `try` around the group-id
computation catches only `KeyError`; `TypeError` (non-dict `groupInfo`) and
the `encode` errors propagate.  The reaction branch shadows the text
branch; attachments are parsed afterwards in array order. -/
def ConnectorSignal.parse_data_message (self : ConnectorSignal) (data_message : Json)
    (args : EventArgs) : Except PyErr (List NEvent) := do
  let target0 : Except PyErr Json := do
    let groupInfo ← data_message.index "groupInfo"
    let groupId ← groupInfo.index "groupId"
    let encoded ← encode_group_id groupId
    pure (.str encoded)
  let target ← match target0 with
    | .ok t => pure t
    | .error (.keyError _) => pure args.user_id
    | .error e => Except.error e
  let target := self.lookup_inv target
  let text ← data_message.pyGet "message"
  let reaction ← data_message.pyGet "reaction"
  let firstEvents ←
    if reaction.truthy then do
      let ev ← self.parse_reaction reaction args target
      pure [ev]
    else if text.truthy then
      pure [ConnectorSignal.parse_text text args target]
    else
      pure []
  let attachments ← data_message.pyGet "attachments"
  let items ← if attachments.truthy then attachments.pyIter else pure []
  let attEvents ← items.mapM (fun a => self.parse_attachment a args target)
  pure (firstEvents ++ attEvents)

/-- `parse_typing_message(typing_message, args)`: same `try`/`KeyError`
shape for the group id; `trigger = (typing_message.get("action") == "STARTED")`,
`timeout=15`; `user_id` is popped from the args and set back on the event. -/
def ConnectorSignal.parse_typing_message (self : ConnectorSignal) (typing_message : Json)
    (args : EventArgs) : Except PyErr NEvent := do
  let target0 : Except PyErr Json := do
    let groupId ← typing_message.index "groupId"
    let encoded ← encode_group_id groupId
    pure (.str encoded)
  let target ← match target0 with
    | .ok t => pure t
    | .error (.keyError _) => pure args.user_id
    | .error e => Except.error e
  let target := self.lookup_inv target
  let action ← typing_message.pyGet "action"
  let trigger := jsonStrEq action "STARTED"
  pure (.typing trigger 15 args target)

/-- `parse_packet(packet)`: the `try` block reads `packet["envelope"]` and
the three required envelope fields; only `KeyError` is caught (dropping the
packet with no events), so indexing a non-dict (`TypeError`) propagates.
A whitelisted-out sender also yields no events.  Then the `dataMessage`
and `typingMessage` branches each run when their value is truthy. -/
def ConnectorSignal.parse_packet (self : ConnectorSignal) (packet : Json) :
    Except PyErr (List NEvent) :=
  match (do
    let envelope ← packet.index "envelope"
    let uid ← envelope.index "sourceNumber"
    let user ← envelope.index "sourceName"
    let ts ← envelope.index "timestamp"
    pure (envelope, ({ user_id := uid, user := user, event_id := ts,
                       raw_event := packet } : EventArgs)) : Except PyErr _) with
  | .error (.keyError _) => .ok []
  | .error e => .error e
  | .ok (envelope, args) =>
    if self.whitelistRejects args.user_id then .ok []
    else do
      let data_message ← envelope.pyGet "dataMessage"
      let dataEvents ← if data_message.truthy
        then self.parse_data_message data_message args else pure []
      let typing_message ← envelope.pyGet "typingMessage"
      let typingEvents ← if typing_message.truthy
        then (do
          let ev ← self.parse_typing_message typing_message args
          pure [ev])
        else pure []
      pure (dataEvents ++ typingEvents)

/-! ## The `listen` loop

`listen()` performs IO; its observable behaviour is modelled as a trace.
The WebSocket text frames (streaming branch) and the JSON bodies of the
receive GETs (polling branch, one per iteration until external
cancellation) are the inputs; the trace records the probe, the branch
taken, the events handed to `opsdroid.parse` in order, and the sleeps.
A finite input list stands for a finite observed prefix of the loop. -/

/-- One observable action of `listen()`. -/
inductive TraceItem where
  | probe
  | wsOpen
  | pollGet
  | emit (ev : NEvent)
  | sleep (interval : Int)
deriving Repr

/-- Whether a trace item is the capability probe request. -/
def TraceItem.isProbe : TraceItem → Bool
  | .probe => true
  | _ => false

/-- The connection mode chosen from the capability probe. -/
inductive Mode where
  | streaming
  | polling
deriving Repr, DecidableEq

/-- `about.get("mode") == "json-rpc"` selects the WebSocket branch; any
other (or absent) mode selects polling.  `.get` on a non-dict probe
response raises `AttributeError`. -/
def selectMode (about : Json) : Except PyErr Mode :=
  match about.pyGet "mode" with
  | .error e => .error e
  | .ok m => .ok (if jsonStrEq m "json-rpc" then .streaming else .polling)

/-- `self.config.get("poll-interval", 10)`. -/
def ConnectorSignal.intervalOf (self : ConnectorSignal) : Int :=
  self.pollInterval.getD 10

/-- Decode a list of packets in order, emitting each packet's events as
they are produced; an uncaught exception aborts the sequence (events of
earlier packets were already emitted). -/
def ConnectorSignal.parsePackets (self : ConnectorSignal) (packets : List Json) :
    List TraceItem × Option PyErr :=
  match packets with
  | [] => ([], none)
  | p :: rest =>
    match self.parse_packet p with
    | .error e => ([], some e)
    | .ok evs =>
      let (trace, err) := self.parsePackets rest
      (evs.map .emit ++ trace, err)

/-- The streaming branch: each text frame is parsed as one packet; an
uncaught exception ends `listen()` with that error. -/
def ConnectorSignal.listenStreaming (self : ConnectorSignal) (frames : List Json) :
    List TraceItem × Option PyErr :=
  match frames with
  | [] => ([], none)
  | f :: rest =>
    match self.parse_packet f with
    | .error e => ([], some e)
    | .ok evs =>
      let (trace, err) := self.listenStreaming rest
      (evs.map .emit ++ trace, err)

/-- The polling branch: every iteration issues one GET, iterates the JSON
body as packets, then sleeps for the configured interval.  An uncaught
exception (a non-iterable body or a packet decode error) aborts the loop. -/
def ConnectorSignal.listenPolling (self : ConnectorSignal) (bodies : List Json) :
    List TraceItem × Option PyErr :=
  match bodies with
  | [] => ([], none)
  | b :: rest =>
    match b.pyIter with
    | .error e => ([.pollGet], some e)
    | .ok packets =>
      let (trace, err) := self.parsePackets packets
      match err with
      | some e => (.pollGet :: trace, some e)
      | none =>
        let (trace2, err2) := self.listenPolling rest
        (.pollGet :: trace ++ .sleep self.intervalOf :: trace2, err2)

/-- `listen()`: one probe of `/v1/about`, then the branch the probed mode
selects, for the whole invocation. -/
def ConnectorSignal.listen (self : ConnectorSignal) (about : Json)
    (frames bodies : List Json) : List TraceItem × Option PyErr :=
  match selectMode about with
  | .error e => ([.probe], some e)
  | .ok .streaming =>
    let (trace, err) := self.listenStreaming frames
    (.probe :: .wsOpen :: trace, err)
  | .ok .polling =>
    let (trace, err) := self.listenPolling bodies
    (.probe :: trace, err)

/-! ## Outbound senders

Each `send_*` handler issues exactly one HTTP request; the embedding
returns the request it would issue, or the local error raised while
building it (in which case no request is issued). -/

inductive HttpMethod where
  | post
  | put
  | delete
deriving Repr, DecidableEq

/-- One outbound HTTP request: method, full URL, JSON body. -/
structure Request where
  method : HttpMethod
  url : String
  body : List (String × Json)
deriving Repr

/-- The fields of an outgoing opsdroid `Message` the handler reads. -/
structure OutMessage where
  target : String
  text : String

/-- The fields of an outgoing `File`/`Image`/`Video` the handler reads
(`file_bytes` is what `event.get_file_bytes()` returns). -/
structure OutFile where
  target : String
  file_bytes : List Nat

/-- The fields of an outgoing `Typing` the handler reads. -/
structure OutTyping where
  target : String
  trigger : Bool

/-- The fields of an outgoing `Reaction` the handler reads
(`linked_user_id`/`linked_event_id` are `event.linked_event.user_id` and
`event.linked_event.event_id`). -/
structure OutReaction where
  target : String
  emoji : String
  linked_user_id : Json
  linked_event_id : Json

/-- `get_recipients_from_event(event)`:
`[x for x in (self.lookup_target(event.target),) if x]` — the resolved
target, filtered by truthiness. -/
def ConnectorSignal.get_recipients_from_event (self : ConnectorSignal)
    (target : String) : List String :=
  let x := self.lookup_target target
  if x ≠ "" then [x] else []

/-- `send_message(event)`: one POST to `/v2/send`. -/
def ConnectorSignal.send_message (self : ConnectorSignal) (event : OutMessage) : Request :=
  { method := .post
    url := self.make_url "/v2/send"
    body := [("number", .str self.number),
             ("recipients", .arr ((self.get_recipients_from_event event.target).map .str)),
             ("message", .str event.text)] }

/-- `send_file(event)`: one POST to `/v2/send` with the base64-encoded
bytes as the single attachment. -/
def ConnectorSignal.send_file (self : ConnectorSignal) (event : OutFile) : Request :=
  { method := .post
    url := self.make_url "/v2/send"
    body := [("number", .str self.number),
             ("recipients", .arr ((self.get_recipients_from_event event.target).map .str)),
             ("base64_attachments", .arr [.str (b64encode event.file_bytes)])] }

/-- `send_typing(event)`: PUT to set, DELETE to remove the indicator; the
body reads `recipients[0]`, an uncaught `IndexError` when the recipients
list is empty — raised before any request is issued. -/
def ConnectorSignal.send_typing (self : ConnectorSignal) (event : OutTyping) :
    Except PyErr Request := do
  let method := if event.trigger then HttpMethod.put else HttpMethod.delete
  let url := self.make_url "/v1/typing-indicator/{number}"
  let recipient ← match self.get_recipients_from_event event.target with
    | [] => Except.error PyErr.indexError
    | r :: _ => pure r
  pure { method := method, url := url, body := [("recipient", .str recipient)] }

/-- `send_reaction(event)`: POST to add (truthy emoji), DELETE to remove;
same endpoint either way; the body reads `recipients[0]` like
`send_typing`. -/
def ConnectorSignal.send_reaction (self : ConnectorSignal) (event : OutReaction) :
    Except PyErr Request := do
  let method := if event.emoji ≠ "" then HttpMethod.post else HttpMethod.delete
  let url := self.make_url "/v1/reactions/{number}"
  let recipient ← match self.get_recipients_from_event event.target with
    | [] => Except.error PyErr.indexError
    | r :: _ => pure r
  pure { method := method, url := url,
         body := [("reaction", .str event.emoji),
                  ("recipient", .str recipient),
                  ("target_author", event.linked_user_id),
                  ("timestamp", event.linked_event_id)] }

/-! ## Concrete inputs used by the witnesses and counterexamples -/

/-- A small configuration: one alias, no whitelist, default poll interval. -/
def exampleConfig : SignalConfig :=
  { baseUrl := "http://h"
    botNumber := "+9"
    rooms := [("room", "+2")]
    whitelistedNumbers := []
    pollInterval := none }

def exampleConnector : ConnectorSignal := ConnectorSignal.init exampleConfig

/-- A configuration whose whitelist names one alias and one raw number. -/
def exampleWhitelistConfig : SignalConfig :=
  { baseUrl := "http://h"
    botNumber := "+9"
    rooms := [("room", "+2")]
    whitelistedNumbers := ["room", "+3"]
    pollInterval := none }

def exampleWhitelistConnector : ConnectorSignal := ConnectorSignal.init exampleWhitelistConfig

/-- A well-formed envelope around one data message payload. -/
def examplePacket (payload : List (String × Json)) : Json :=
  .obj [("envelope", .obj
    [("sourceNumber", .str "+1"), ("sourceName", .str "A"), ("timestamp", .num 100),
     ("dataMessage", .obj payload)])]

/-- A packet whose nested reaction payload lacks the `emoji` field (and has
no `isRemove`): `parse_reaction` raises an uncaught `KeyError`. -/
def badReactionPacket : Json :=
  examplePacket [("reaction", .obj [("targetAuthorNumber", .str "+2"),
                                    ("targetSentTimestamp", .num 50)])]

/-- A packet with a typing notice whose action is `STARTED`. -/
def exampleTypingPacket : Json :=
  .obj [("envelope", .obj
    [("sourceNumber", .str "+1"), ("sourceName", .str "A"), ("timestamp", .num 100),
     ("typingMessage", .obj [("action", .str "STARTED")])])]

/-- A reaction packet with `isRemove` unset and a provided emoji. -/
def exampleReactionPacket : Json :=
  examplePacket [("reaction", .obj
    [("emoji", .str "X"), ("targetAuthorNumber", .str "+2"),
     ("targetSentTimestamp", .num 50)])]

/-- An attachment whose contentType is the bare string `image` — not a
type under `image/`, yet dispatched to the Image class by `split("/")[0]`. -/
def bareImageAttachment : Json :=
  .obj [("id", .num 7), ("contentType", .str "image")]

def exampleArgs : EventArgs :=
  { user_id := .str "+1", user := .str "A", event_id := .num 100, raw_event := .null }

/-! # Helper lemmas -/

/-- Python `==` against a string literal is equality with that string value. -/
theorem jsonStrEq_iff (j : Json) (s : String) : jsonStrEq j s = true ↔ j = .str s := by
  cases j <;> simp [jsonStrEq]

/-- `.get` on a dict never raises: it yields the value or null. -/
theorem pyGet_obj (kvs : List (String × Json)) (k : String) :
    Json.pyGet (.obj kvs) k = .ok (lookupKVD kvs k) := by
  simp only [Json.pyGet, lookupKVD]
  cases h : lookupKV kvs k <;> simp [h]

/-- Once the four required envelope fields are found, `parse_packet` is the
whitelist gate followed by the two payload branches. -/
theorem parse_packet_reduce (self : ConnectorSignal) (pkvs ekvs : List (String × Json))
    (uid user ts : Json)
    (henv : lookupKV pkvs "envelope" = some (.obj ekvs))
    (hsn : lookupKV ekvs "sourceNumber" = some uid)
    (hsa : lookupKV ekvs "sourceName" = some user)
    (hts : lookupKV ekvs "timestamp" = some ts) :
    self.parse_packet (.obj pkvs) =
      (if self.whitelistRejects uid then .ok []
       else do
         let dataEvents ← if (lookupKVD ekvs "dataMessage").truthy
           then self.parse_data_message (lookupKVD ekvs "dataMessage")
                  ⟨uid, user, ts, .obj pkvs⟩ else pure []
         let typingEvents ← if (lookupKVD ekvs "typingMessage").truthy
           then (do
             let ev ← self.parse_typing_message (lookupKVD ekvs "typingMessage")
                        ⟨uid, user, ts, .obj pkvs⟩
             pure [ev])
           else pure []
         pure (dataEvents ++ typingEvents)) := by
  unfold ConnectorSignal.parse_packet
  simp [Json.index, henv, hsn, hsa, hts, pyGet_obj, Bind.bind, Except.bind, Pure.pure,
        Except.pure]

/-! # Claims -/

/-- C4: the sender allow-list check admits every sender when the configured
allow-set is empty, and otherwise admits exactly the configured members
(entries resolved through the alias table at construction time); a
rejected sender produces zero events from its packet. -/
theorem whitelist_admission_spec (self : ConnectorSignal) (uid : Json) :
    (self.whitelist = [] → self.whitelistRejects uid = false)
  ∧ (self.whitelist ≠ [] →
      (self.whitelistRejects uid = false ↔ ∃ s, s ∈ self.whitelist ∧ uid = .str s))
  ∧ (∀ c : SignalConfig, (ConnectorSignal.init c).whitelist
      = c.whitelistedNumbers.map (fun v => dictGet c.rooms v v))
  ∧ (∀ (pkvs ekvs : List (String × Json)) (user ts : Json),
      lookupKV pkvs "envelope" = some (.obj ekvs) →
      lookupKV ekvs "sourceNumber" = some uid →
      lookupKV ekvs "sourceName" = some user →
      lookupKV ekvs "timestamp" = some ts →
      self.whitelistRejects uid = true →
      self.parse_packet (.obj pkvs) = .ok []) := by
  refine ⟨?_, ?_, fun c => rfl, ?_⟩
  · intro h
    simp [ConnectorSignal.whitelistRejects, h]
  · intro h
    have hne : self.whitelist.isEmpty = false := by simpa [List.isEmpty_iff] using h
    simp [ConnectorSignal.whitelistRejects, hne, List.any_eq_true, jsonStrEq_iff]
  · intro pkvs ekvs user ts henv hsn hsa hts hrej
    rw [parse_packet_reduce self pkvs ekvs uid user ts henv hsn hsa hts, if_pos hrej]

/-- C3: sending a Message event produces exactly one POST to `/v2/send`
whose body carries the text as `message` and, as `recipients`, the
one-element list of the alias-resolved target — or the empty list when the
target resolves to an empty (falsy) value, rather than failing locally. -/
theorem send_message_spec (self : ConnectorSignal) (event : OutMessage) :
    (self.send_message event).method = HttpMethod.post
  ∧ (self.send_message event).url = self.make_url "/v2/send"
  ∧ (self.lookup_target event.target ≠ "" →
      (self.send_message event).body
        = [("number", .str self.number),
           ("recipients", .arr [.str (self.lookup_target event.target)]),
           ("message", .str event.text)])
  ∧ (self.lookup_target event.target = "" →
      (self.send_message event).body
        = [("number", .str self.number),
           ("recipients", .arr []),
           ("message", .str event.text)]) := by
  refine ⟨rfl, rfl, ?_, ?_⟩ <;> intro h <;>
    simp [ConnectorSignal.send_message, ConnectorSignal.get_recipients_from_event, h]

/-- C10: an outbound Typing or Reaction event whose target resolves to an
empty (falsy) address fails locally with an `IndexError` — no request value
is produced — while Message and File sends transmit an empty recipients
list in the same situation. -/
theorem empty_target_local_failure_spec (self : ConnectorSignal) (t : String)
    (trig : Bool) (em : String) (lu le : Json) (txt : String) (bs : List Nat)
    (h : self.lookup_target t = "") :
    self.send_typing ⟨t, trig⟩ = .error .indexError
  ∧ self.send_reaction ⟨t, em, lu, le⟩ = .error .indexError
  ∧ (self.send_message ⟨t, txt⟩).body
      = [("number", .str self.number), ("recipients", .arr []), ("message", .str txt)]
  ∧ (self.send_file ⟨t, bs⟩).body
      = [("number", .str self.number), ("recipients", .arr []),
         ("base64_attachments", .arr [.str (b64encode bs)])] := by
  refine ⟨?_, ?_, ?_, ?_⟩ <;>
    simp [ConnectorSignal.send_typing, ConnectorSignal.send_reaction,
      ConnectorSignal.send_message, ConnectorSignal.send_file,
      ConnectorSignal.get_recipients_from_event, h, Bind.bind, Except.bind]

/-- Witness for C10 at a concrete connector and events whose target is the
empty string (absent from the alias table, so it resolves to itself). -/
theorem empty_target_local_failure_witness :
    exampleConnector.send_typing ⟨"", true⟩ = .error .indexError
  ∧ exampleConnector.send_reaction ⟨"", "X", .str "+2", .num 5⟩ = .error .indexError
  ∧ (exampleConnector.send_message ⟨"", "hi"⟩).body
      = [("number", .str exampleConnector.number), ("recipients", .arr []),
         ("message", .str "hi")]
  ∧ (exampleConnector.send_file ⟨"", [104]⟩).body
      = [("number", .str exampleConnector.number), ("recipients", .arr []),
         ("base64_attachments", .arr [.str (b64encode [104])])] :=
  empty_target_local_failure_spec exampleConnector "" true "X" (.str "+2") (.num 5)
    "hi" [104] rfl

/-- C7: sending a Reaction with a non-empty emoji issues a POST and with an
empty emoji a DELETE, both to the same reactions endpoint; the body carries
the emoji, the alias-resolved recipient, and the author and timestamp of
the event's linked reference. -/
theorem send_reaction_verb_spec (self : ConnectorSignal) (event : OutReaction)
    (h : self.lookup_target event.target ≠ "") :
    self.send_reaction event = .ok
      { method := if event.emoji ≠ "" then .post else .delete
        url := self.make_url "/v1/reactions/{number}"
        body := [("reaction", .str event.emoji),
                 ("recipient", .str (self.lookup_target event.target)),
                 ("target_author", event.linked_user_id),
                 ("timestamp", event.linked_event_id)] }
  ∧ (event.emoji ≠ "" → (self.send_reaction event).map Request.method = .ok .post)
  ∧ (event.emoji = "" → (self.send_reaction event).map Request.method = .ok .delete) := by
  have hmain : self.send_reaction event = .ok
      { method := if event.emoji ≠ "" then HttpMethod.post else HttpMethod.delete
        url := self.make_url "/v1/reactions/{number}"
        body := [("reaction", .str event.emoji),
                 ("recipient", .str (self.lookup_target event.target)),
                 ("target_author", event.linked_user_id),
                 ("timestamp", event.linked_event_id)] } := by
    simp [ConnectorSignal.send_reaction, ConnectorSignal.get_recipients_from_event, h,
      Bind.bind, Except.bind, Pure.pure, Except.pure]
  refine ⟨hmain, ?_, ?_⟩ <;> intro he <;> simp [hmain, he, Except.map]

/-- Witness for C7 at a concrete connector and a removal (empty-emoji)
reaction whose target alias resolves to a phone number. -/
theorem send_reaction_verb_witness :
    exampleConnector.send_reaction ⟨"room", "", .str "+2", .num 5⟩ = .ok
      { method := if ("" : String) ≠ "" then .post else .delete
        url := exampleConnector.make_url "/v1/reactions/{number}"
        body := [("reaction", .str ""),
                 ("recipient", .str (exampleConnector.lookup_target "room")),
                 ("target_author", .str "+2"),
                 ("timestamp", .num 5)] }
  ∧ (("" : String) ≠ "" →
      (exampleConnector.send_reaction ⟨"room", "", .str "+2", .num 5⟩).map Request.method
        = .ok .post)
  ∧ (("" : String) = "" →
      (exampleConnector.send_reaction ⟨"room", "", .str "+2", .num 5⟩).map Request.method
        = .ok .delete) :=
  send_reaction_verb_spec exampleConnector ⟨"room", "", .str "+2", .num 5⟩ (by decide)

/-- C9 (amended): the media kind of a decoded attachment is selected by
the first slash-separated component of the MIME type — `image` yields an
Image event, `video` a Video event, anything else (or an absent MIME type)
a File event.  In particular every type under `image/` or `video/` is
dispatched as the claim states, but the bare slashless strings `image` and
`video` are dispatched to Image/Video as well, not to File. -/
theorem attachment_kind_spec (self : ConnectorSignal) (akvs : List (String × Json))
    (args : EventArgs) (target : Json) (idv : Json) (s : String)
    (hid : lookupKV akvs "id" = some idv)
    (hmime : lookupKV akvs "contentType" = some (.str s) ∨
             (lookupKV akvs "contentType" = none ∧ s = "")) :
    (self.parse_attachment (.obj akvs) args target).map NEvent.mediaKind
      = .ok (some (if splitSlashHead s = "image" then .image
                   else if splitSlashHead s = "video" then .video
                   else .file)) := by
  rcases hmime with hm | ⟨hm, rfl⟩ <;>
  · unfold ConnectorSignal.parse_attachment
    simp only [Json.index, hid, pyGet_obj, lookupKVD, hm, Bind.bind, Except.bind,
      Pure.pure, Except.pure]
    first
    | (by_cases hs : s = ""
       · subst hs
         simp [Json.truthy, Except.map, NEvent.mediaKind]
         split_ifs <;> simp_all [NEvent.mediaKind]
       · simp [Json.truthy, hs, Except.map]
         split_ifs <;> simp_all [NEvent.mediaKind])
    | (simp [Json.truthy, Except.map, NEvent.mediaKind]
       split_ifs <;> simp_all [NEvent.mediaKind])

/-- Witness for C9 at a concrete attachment with MIME type `video/mp4`. -/
theorem attachment_kind_witness :
    ((exampleConnector.parse_attachment
        (.obj [("id", .num 7), ("contentType", .str "video/mp4")])
        exampleArgs (.str "+1")).map NEvent.mediaKind)
      = .ok (some (if splitSlashHead "video/mp4" = "image" then .image
                   else if splitSlashHead "video/mp4" = "video" then .video
                   else .file)) :=
  attachment_kind_spec exampleConnector [("id", .num 7), ("contentType", .str "video/mp4")]
    exampleArgs (.str "+1") (.num 7) "video/mp4" rfl (Or.inl rfl)

/-- Counterexample for C9 as stated: the contentType `image` is not a type
under `image/`, so by the claim it should yield a generic File event, but
`split("/")[0]` makes the connector emit an Image event for it. -/
theorem attachment_bare_image_cex :
    (exampleConnector.parse_attachment bareImageAttachment exampleArgs (.str "+1")).map
        NEvent.mediaKind = .ok (some .image) := rfl

/-- `parse_typing_message` on a typing payload without a group id: the
target is the sender resolved through the reverse alias table, the trigger
is the comparison of the action field with `STARTED`, the timeout 15. -/
theorem parse_typing_reduce (self : ConnectorSignal) (tkvs : List (String × Json))
    (args : EventArgs)
    (hgrp : lookupKV tkvs "groupId" = none) :
    self.parse_typing_message (.obj tkvs) args
      = .ok (.typing (jsonStrEq (lookupKVD tkvs "action") "STARTED") 15 args
              (self.lookup_inv args.user_id)) := by
  unfold ConnectorSignal.parse_typing_message
  simp [Json.index, hgrp, pyGet_obj, Bind.bind, Except.bind, Pure.pure, Except.pure]

/-- C2: an envelope containing a typing notice decodes to exactly one
Typing event; its trigger is true exactly when the action field is the
string `STARTED` (so false for any other or absent action), and it carries
the fixed suspend-timeout hint 15. -/
theorem typing_decoding_spec (self : ConnectorSignal)
    (pkvs ekvs tkvs : List (String × Json)) (uid user ts : Json)
    (henv : lookupKV pkvs "envelope" = some (.obj ekvs))
    (hsn : lookupKV ekvs "sourceNumber" = some uid)
    (hsa : lookupKV ekvs "sourceName" = some user)
    (hts : lookupKV ekvs "timestamp" = some ts)
    (hwl : self.whitelistRejects uid = false)
    (hdm : lookupKV ekvs "dataMessage" = none)
    (htm : lookupKV ekvs "typingMessage" = some (.obj tkvs))
    (htne : tkvs ≠ [])
    (hgrp : lookupKV tkvs "groupId" = none) :
    self.parse_packet (.obj pkvs)
      = .ok [.typing (jsonStrEq (lookupKVD tkvs "action") "STARTED") 15
              ⟨uid, user, ts, .obj pkvs⟩ (self.lookup_inv uid)]
  ∧ (jsonStrEq (lookupKVD tkvs "action") "STARTED" = true ↔
      lookupKV tkvs "action" = some (.str "STARTED")) := by
  constructor
  · have hne : tkvs.isEmpty = false := by simp [List.isEmpty_iff, htne]
    rw [parse_packet_reduce self pkvs ekvs uid user ts henv hsn hsa hts,
      if_neg (by simp [hwl])]
    simp [lookupKVD, hdm, htm, Json.truthy, hne, parse_typing_reduce, hgrp,
      Bind.bind, Except.bind, Pure.pure, Except.pure]
  · rw [jsonStrEq_iff]
    unfold lookupKVD
    cases h : lookupKV tkvs "action" <;> simp [h]

/-- Witness for C2 at a concrete packet whose action is `STARTED`. -/
theorem typing_decoding_witness :
    exampleConnector.parse_packet exampleTypingPacket
      = .ok [.typing (jsonStrEq (lookupKVD [("action", Json.str "STARTED")] "action")
                        "STARTED") 15
              ⟨.str "+1", .str "A", .num 100, exampleTypingPacket⟩
              (exampleConnector.lookup_inv (.str "+1"))]
  ∧ (jsonStrEq (lookupKVD [("action", Json.str "STARTED")] "action") "STARTED" = true ↔
      lookupKV [("action", Json.str "STARTED")] "action" = some (.str "STARTED")) :=
  typing_decoding_spec exampleConnector _ _ _ _ _ _ rfl rfl rfl rfl rfl rfl rfl
    (List.cons_ne_nil _ _) rfl

/-- `parse_reaction` on a payload with the needed fields: the emoji is the
empty string when `isRemove` is truthy and the provided emoji otherwise,
and the linked reference fields are the reacted-to author and timestamp. -/
theorem parse_reaction_reduce (self : ConnectorSignal) (rkvs : List (String × Json))
    (args : EventArgs) (target : Json) (em tAuthor tSent : Json)
    (hcase : ((lookupKVD rkvs "isRemove").truthy = true ∧ em = .str "")
           ∨ ((lookupKVD rkvs "isRemove").truthy = false ∧ lookupKV rkvs "emoji" = some em))
    (hta : lookupKV rkvs "targetAuthorNumber" = some tAuthor)
    (htt : lookupKV rkvs "targetSentTimestamp" = some tSent) :
    self.parse_reaction (.obj rkvs) args target
      = .ok (.reaction em tAuthor tSent args target) := by
  unfold ConnectorSignal.parse_reaction
  rcases hcase with ⟨h1, rfl⟩ | ⟨h1, h2⟩
  · simp [pyGet_obj, h1, Json.index, hta, htt, Bind.bind, Except.bind, Pure.pure,
      Except.pure]
  · simp [pyGet_obj, h1, Json.index, hta, htt, h2, Bind.bind, Except.bind, Pure.pure,
      Except.pure]

/-- `parse_data_message` on a groupless payload holding a reaction (with
the needed fields) and no attachments: exactly one Reaction event, whatever
the `message` text is. -/
theorem parse_data_reaction_reduce (self : ConnectorSignal)
    (dkvs rkvs : List (String × Json)) (args : EventArgs) (em tAuthor tSent : Json)
    (hgrp : lookupKV dkvs "groupInfo" = none)
    (hre : lookupKV dkvs "reaction" = some (.obj rkvs))
    (hrne : rkvs ≠ [])
    (hatt : lookupKV dkvs "attachments" = none)
    (hcase : ((lookupKVD rkvs "isRemove").truthy = true ∧ em = .str "")
           ∨ ((lookupKVD rkvs "isRemove").truthy = false ∧ lookupKV rkvs "emoji" = some em))
    (hta : lookupKV rkvs "targetAuthorNumber" = some tAuthor)
    (htt : lookupKV rkvs "targetSentTimestamp" = some tSent) :
    self.parse_data_message (.obj dkvs) args
      = .ok [.reaction em tAuthor tSent args (self.lookup_inv args.user_id)] := by
  have hne : rkvs.isEmpty = false := by simp [List.isEmpty_iff, hrne]
  unfold ConnectorSignal.parse_data_message
  simp [Json.index, hgrp, pyGet_obj, lookupKVD, hre, hatt, Json.truthy, hne,
    parse_reaction_reduce self rkvs args (self.lookup_inv args.user_id) em tAuthor tSent
      (by simpa [lookupKVD] using hcase) hta htt,
    Bind.bind, Except.bind, Pure.pure, Except.pure, List.mapM.loop]

/-- C6: a data message containing a reaction payload decodes to exactly one
Reaction event (the text branch is not taken even when a text is present);
the emoji is `""` when `isRemove` is truthy and the provided emoji
otherwise; the linked reference carries the reacted-to message author and
timestamp, not the reactor. -/
theorem reaction_decoding_spec (self : ConnectorSignal)
    (pkvs ekvs dkvs rkvs : List (String × Json)) (uid user ts em tAuthor tSent : Json)
    (henv : lookupKV pkvs "envelope" = some (.obj ekvs))
    (hsn : lookupKV ekvs "sourceNumber" = some uid)
    (hsa : lookupKV ekvs "sourceName" = some user)
    (hts : lookupKV ekvs "timestamp" = some ts)
    (hwl : self.whitelistRejects uid = false)
    (hdm : lookupKV ekvs "dataMessage" = some (.obj dkvs))
    (hdmne : dkvs ≠ [])
    (htm : lookupKV ekvs "typingMessage" = none)
    (hgrp : lookupKV dkvs "groupInfo" = none)
    (hre : lookupKV dkvs "reaction" = some (.obj rkvs))
    (hrne : rkvs ≠ [])
    (hatt : lookupKV dkvs "attachments" = none)
    (hcase : ((lookupKVD rkvs "isRemove").truthy = true ∧ em = .str "")
           ∨ ((lookupKVD rkvs "isRemove").truthy = false ∧ lookupKV rkvs "emoji" = some em))
    (hta : lookupKV rkvs "targetAuthorNumber" = some tAuthor)
    (htt : lookupKV rkvs "targetSentTimestamp" = some tSent) :
    self.parse_packet (.obj pkvs)
      = .ok [.reaction em tAuthor tSent ⟨uid, user, ts, .obj pkvs⟩
              (self.lookup_inv uid)] := by
  have hne : dkvs.isEmpty = false := by simp [List.isEmpty_iff, hdmne]
  rw [parse_packet_reduce self pkvs ekvs uid user ts henv hsn hsa hts,
    if_neg (by simp [hwl])]
  simp [lookupKVD, hdm, htm, Json.truthy, hne,
    parse_data_reaction_reduce self dkvs rkvs ⟨uid, user, ts, .obj pkvs⟩ em tAuthor tSent
      hgrp hre hrne hatt hcase hta htt,
    Bind.bind, Except.bind, Pure.pure, Except.pure]

/-- Witness for C6 at a concrete reaction packet (`isRemove` unset, emoji
provided). -/
theorem reaction_decoding_witness :
    exampleConnector.parse_packet exampleReactionPacket
      = .ok [.reaction (.str "X") (.str "+2") (.num 50)
              ⟨.str "+1", .str "A", .num 100, exampleReactionPacket⟩
              (exampleConnector.lookup_inv (.str "+1"))] :=
  reaction_decoding_spec exampleConnector _ _ _ _ _ _ _ _ _ _
    rfl rfl rfl rfl rfl rfl (List.cons_ne_nil _ _) rfl rfl rfl
    (List.cons_ne_nil _ _) rfl (Or.inr ⟨rfl, rfl⟩) rfl rfl

/-- In a table with pairwise-distinct keys, `find?` at a bound key yields
the binding. -/
theorem find_eq_of_mem_nodup {β : Type} (l : List (String × β)) (a : String) (b : β)
    (hk : (l.map Prod.fst).Nodup) (hm : (a, b) ∈ l) :
    l.find? (fun kv => kv.1 = a) = some (a, b) := by
  induction l with
  | nil => cases hm
  | cons p tl ih =>
    have hk2 : (p.1 :: tl.map Prod.fst).Nodup := by simpa using hk
    have hk' := List.nodup_cons.mp hk2
    rcases List.mem_cons.mp hm with rfl | hmem
    · simp [List.find?]
    · have hpa : ¬(p.1 = a) := by
        rintro rfl
        exact hk'.1 (List.mem_map.mpr ⟨(p.1, b), hmem, rfl⟩)
      simpa [List.find?, hpa] using ih hk'.2 hmem

/-- `find?` misses a key that is not among the table keys. -/
theorem find_none_of_not_mem_keys {β : Type} (l : List (String × β)) (a : String)
    (h : a ∉ l.map Prod.fst) :
    l.find? (fun kv => kv.1 = a) = none := by
  induction l with
  | nil => rfl
  | cons p tl ih =>
    simp only [List.map_cons, List.mem_cons, not_or] at h
    have hpa : ¬(p.1 = a) := fun he => h.1 he.symm
    simpa [List.find?, hpa] using ih h.2

/-- Building the reverse table inserts only fresh keys when the values of
the forward table are pairwise distinct. -/
theorem foldl_dictInsert_fresh (l : List (String × String)) (d : List (String × String))
    (hd : ∀ kv ∈ l, kv.2 ∉ d.map Prod.fst)
    (hv : (l.map Prod.snd).Nodup) :
    l.foldl (fun acc kv => dictInsert acc kv.2 kv.1) d = d ++ l.map Prod.swap := by
  induction l generalizing d with
  | nil => simp
  | cons kv tl ih =>
    have hv2 : (kv.2 :: tl.map Prod.snd).Nodup := by simpa using hv
    have hv' := List.nodup_cons.mp hv2
    have hfresh : kv.2 ∉ d.map Prod.fst := hd kv (List.mem_cons_self _ _)
    have hnotany : ¬(d.any (fun p => p.1 = kv.2) = true) := by
      simp only [List.any_eq_true]
      rintro ⟨p, hp, hpe⟩
      exact hfresh (List.mem_map.mpr ⟨p, hp, by simpa using hpe⟩)
    have hstep : dictInsert d kv.2 kv.1 = d ++ [(kv.2, kv.1)] := by
      unfold dictInsert
      rw [if_neg hnotany]
    have hd' : ∀ kv2 ∈ tl, kv2.2 ∉ (d ++ [(kv.2, kv.1)]).map Prod.fst := by
      intro kv2 hkv2
      simp only [List.map_append, List.mem_append, List.map_cons, List.map_nil,
        List.mem_cons, not_or]
      refine ⟨hd kv2 (List.mem_cons_of_mem _ hkv2), ?_, by simp⟩
      rintro he
      have hin : kv2.2 ∈ tl.map Prod.snd := List.mem_map.mpr ⟨kv2, hkv2, rfl⟩
      rw [he] at hin
      exact hv'.1 hin
    calc (kv :: tl).foldl (fun acc p => dictInsert acc p.2 p.1) d
        = tl.foldl (fun acc p => dictInsert acc p.2 p.1) (d ++ [(kv.2, kv.1)]) := by
          simp [List.foldl_cons, hstep]
      _ = (d ++ [(kv.2, kv.1)]) ++ tl.map Prod.swap := ih _ hd' hv'.2
      _ = d ++ (kv :: tl).map Prod.swap := by simp [Prod.swap]

/-- With pairwise-distinct addresses, the reverse table is the forward
table with every pair swapped. -/
theorem invRooms_eq_swap (rooms : List (String × String))
    (hv : (rooms.map Prod.snd).Nodup) :
    invRooms rooms = rooms.map Prod.swap := by
  simpa using foldl_dictInsert_fresh rooms [] (by simp) hv

/-- C5: with an injective alias table, resolving a configured alias yields
its address and reverse-resolving that address yields the alias back; any
input absent from the respective table passes through unchanged. -/
theorem alias_roundtrip_spec (c : SignalConfig) (a x : String)
    (hk : (c.rooms.map Prod.fst).Nodup)
    (hv : (c.rooms.map Prod.snd).Nodup)
    (hm : (a, x) ∈ c.rooms) :
    (ConnectorSignal.init c).lookup_target a = x
  ∧ (ConnectorSignal.init c).lookup_inv (.str x) = .str a
  ∧ (∀ t, t ∉ c.rooms.map Prod.fst → (ConnectorSignal.init c).lookup_target t = t)
  ∧ (∀ u, u ∉ c.rooms.map Prod.snd →
      (ConnectorSignal.init c).lookup_inv (.str u) = .str u) := by
  have hinv : invRooms c.rooms = c.rooms.map Prod.swap := invRooms_eq_swap c.rooms hv
  have hswapkeys : (c.rooms.map Prod.swap).map Prod.fst = c.rooms.map Prod.snd := by
    simp [List.map_map]
  refine ⟨?_, ?_, ?_, ?_⟩
  · show dictGet c.rooms a a = x
    unfold dictGet
    rw [find_eq_of_mem_nodup c.rooms a x hk hm]
  · show Json.str (dictGet (invRooms c.rooms) x x) = .str a
    unfold dictGet
    rw [hinv, find_eq_of_mem_nodup (c.rooms.map Prod.swap) x a
      (by rw [hswapkeys]; exact hv) (List.mem_map.mpr ⟨(a, x), hm, rfl⟩)]
  · intro t ht
    show dictGet c.rooms t t = t
    unfold dictGet
    rw [find_none_of_not_mem_keys c.rooms t ht]
  · intro u hu
    show Json.str (dictGet (invRooms c.rooms) u u) = .str u
    unfold dictGet
    rw [hinv, find_none_of_not_mem_keys (c.rooms.map Prod.swap) u
      (by rw [hswapkeys]; exact hu)]

/-- Witness for C5 at the one-alias table `room -> +2`. -/
theorem alias_roundtrip_witness :
    (ConnectorSignal.init exampleConfig).lookup_target "room" = "+2"
  ∧ (ConnectorSignal.init exampleConfig).lookup_inv (.str "+2") = .str "room"
  ∧ (∀ t, t ∉ exampleConfig.rooms.map Prod.fst →
      (ConnectorSignal.init exampleConfig).lookup_target t = t)
  ∧ (∀ u, u ∉ exampleConfig.rooms.map Prod.snd →
      (ConnectorSignal.init exampleConfig).lookup_inv (.str u) = .str u) :=
  alias_roundtrip_spec exampleConfig "room" "+2" (by simp [exampleConfig])
    (by simp [exampleConfig]) (by simp [exampleConfig])

/-- C1 (amended): a packet missing a required envelope-level field (the
envelope object, sender address, display name, or timestamp) is dropped
silently — decoding yields no events, no error surfaces, and the polling
loop proceeds to its next iteration.  The claim's extension to nested
payloads fails on the code: a reaction or attachment payload missing a
required field raises an uncaught KeyError that surfaces to the caller and
aborts the listen loop (see the counterexample). -/
theorem malformed_envelope_drop_spec (self : ConnectorSignal)
    (pkvs : List (String × Json))
    (h : lookupKV pkvs "envelope" = none ∨
         ∃ ekvs, lookupKV pkvs "envelope" = some (.obj ekvs) ∧
           (lookupKV ekvs "sourceNumber" = none ∨ lookupKV ekvs "sourceName" = none ∨
            lookupKV ekvs "timestamp" = none)) :
    self.parse_packet (.obj pkvs) = .ok []
  ∧ ∀ rest, self.listenPolling (Json.arr [Json.obj pkvs] :: rest)
      = (.pollGet :: .sleep self.intervalOf :: (self.listenPolling rest).1,
         (self.listenPolling rest).2) := by
  have hdrop : self.parse_packet (.obj pkvs) = .ok [] := by
    unfold ConnectorSignal.parse_packet
    rcases h with h0 | ⟨ekvs, he, h1 | h1 | h1⟩
    · simp [Json.index, h0, Bind.bind, Except.bind]
    · simp [Json.index, he, h1, Bind.bind, Except.bind]
    · cases hsn : lookupKV ekvs "sourceNumber" <;>
        simp [Json.index, he, hsn, h1, Bind.bind, Except.bind]
    · cases hsn : lookupKV ekvs "sourceNumber" <;>
        cases hsa : lookupKV ekvs "sourceName" <;>
          simp [Json.index, he, hsn, hsa, h1, Bind.bind, Except.bind]
  refine ⟨hdrop, ?_⟩
  intro rest
  rcases hr : self.listenPolling rest with ⟨t2, e2⟩
  simp [ConnectorSignal.listenPolling, Json.pyIter, ConnectorSignal.parsePackets,
    hdrop, hr]

/-- Witness for the amended C1 at a packet with no envelope at all. -/
theorem malformed_envelope_drop_witness :
    exampleConnector.parse_packet (.obj []) = .ok []
  ∧ ∀ rest, exampleConnector.listenPolling (Json.arr [Json.obj []] :: rest)
      = (.pollGet :: .sleep exampleConnector.intervalOf ::
           (exampleConnector.listenPolling rest).1,
         (exampleConnector.listenPolling rest).2) :=
  malformed_envelope_drop_spec exampleConnector [] (Or.inl rfl)

/-- Counterexample for C1 as stated: a packet whose nested reaction payload
lacks the emoji field (with `isRemove` unset) makes decoding raise a
KeyError — an error surfaces to the caller and the polling listen loop
aborts instead of continuing. -/
theorem nested_missing_field_cex :
    exampleConnector.parse_packet badReactionPacket = .error (.keyError "emoji")
  ∧ exampleConnector.listenPolling [Json.arr [badReactionPacket]]
      = ([TraceItem.pollGet], some (PyErr.keyError "emoji")) :=
  ⟨rfl, rfl⟩

/-- One successfully decoded packet prepends its events to the rest. -/
theorem parsePackets_cons_ok (self : ConnectorSignal) (p : Json) (rest : List Json)
    (evs : List NEvent) (h : self.parse_packet p = .ok evs) :
    self.parsePackets (p :: rest)
      = (evs.map .emit ++ (self.parsePackets rest).1, (self.parsePackets rest).2) := by
  rcases hres : self.parsePackets rest with ⟨tr, er⟩
  unfold ConnectorSignal.parsePackets
  rw [h, hres]

/-- When every packet of a body decodes (to the respective event lists of
`evss`), the emitted trace is the decoded events joined in array order,
with no error. -/
theorem parsePackets_all_ok (self : ConnectorSignal) (ps : List Json)
    (evss : List (List NEvent))
    (h : List.Forall₂ (fun p evs => self.parse_packet p = .ok evs) ps evss) :
    self.parsePackets ps = (evss.flatten.map .emit, none) := by
  induction h with
  | nil => simp [ConnectorSignal.parsePackets]
  | cons hpe htail ih =>
    rw [parsePackets_cons_ok _ _ _ _ hpe, ih]
    simp

/-- The probe item is only ever recorded by `listen` itself, never while
decoding packets. -/
theorem parsePackets_no_probe (self : ConnectorSignal) (ps : List Json) :
    TraceItem.probe ∉ (self.parsePackets ps).1 := by
  induction ps with
  | nil => simp [ConnectorSignal.parsePackets]
  | cons p rest ih =>
    unfold ConnectorSignal.parsePackets
    cases h : self.parse_packet p with
    | error e => simp
    | ok evs =>
      rcases hres : self.parsePackets rest with ⟨tr, er⟩
      rw [hres] at ih
      simp only [List.mem_append, not_or]
      refine ⟨?_, ih⟩
      rintro hm
      rcases List.mem_map.mp hm with ⟨ev, _, habs⟩
      cases habs

/-- The streaming branch never records the probe item. -/
theorem listenStreaming_no_probe (self : ConnectorSignal) (frames : List Json) :
    TraceItem.probe ∉ (self.listenStreaming frames).1 := by
  induction frames with
  | nil => simp [ConnectorSignal.listenStreaming]
  | cons f rest ih =>
    unfold ConnectorSignal.listenStreaming
    cases h : self.parse_packet f with
    | error e => simp
    | ok evs =>
      rcases hres : self.listenStreaming rest with ⟨tr, er⟩
      rw [hres] at ih
      simp only [List.mem_append, not_or]
      refine ⟨?_, ih⟩
      rintro hm
      rcases List.mem_map.mp hm with ⟨ev, _, habs⟩
      cases habs

/-- The polling branch never records the probe item. -/
theorem listenPolling_no_probe (self : ConnectorSignal) (bodies : List Json) :
    TraceItem.probe ∉ (self.listenPolling bodies).1 := by
  induction bodies with
  | nil => simp [ConnectorSignal.listenPolling]
  | cons b rest ih =>
    unfold ConnectorSignal.listenPolling
    cases hi : b.pyIter with
    | error e => simp
    | ok packets =>
      have hpp := parsePackets_no_probe self packets
      cases her : (self.parsePackets packets).2 with
      | some e =>
        intro hm
        simp only [her, List.mem_cons] at hm
        rcases hm with h1 | h2
        · cases h1
        · exact hpp h2
      | none =>
        intro hm
        simp only [her, List.cons_append, List.mem_cons, List.mem_append] at hm
        rcases hm with h1 | h2 | h3 | h4
        · cases h1
        · exact hpp h2
        · cases h3
        · exact ih h4

/-- A list of trace items without the probe has probe-count zero. -/
theorem countP_probe_zero (l : List TraceItem) (h : TraceItem.probe ∉ l) :
    l.countP TraceItem.isProbe = 0 := by
  refine List.countP_eq_zero.mpr (fun a ha hp => ?_)
  cases a with
  | probe => exact h ha
  | wsOpen => simp [TraceItem.isProbe] at hp
  | pollGet => simp [TraceItem.isProbe] at hp
  | emit ev => simp [TraceItem.isProbe] at hp
  | sleep n => simp [TraceItem.isProbe] at hp

/-- C8: every `listen()` invocation starts with exactly one capability
probe and selects its branch from the probed mode once: `json-rpc` means
streaming, anything else polling; a polling iteration is one GET, the
decoded events of the body's packets in array order, then a sleep of the
configured interval (10 when not configured); an empty array yields no
events. -/
theorem listen_mode_spec (self : ConnectorSignal) (about : Json)
    (frames bodies : List Json) :
    ((self.listen about frames bodies).1.head? = some .probe
      ∧ (self.listen about frames bodies).1.countP TraceItem.isProbe = 1)
  ∧ (selectMode about = .ok .streaming ↔ about.pyGet "mode" = .ok (.str "json-rpc"))
  ∧ (selectMode about = .ok .streaming →
      self.listen about frames bodies
        = (.probe :: .wsOpen :: (self.listenStreaming frames).1,
           (self.listenStreaming frames).2))
  ∧ (selectMode about = .ok .polling →
      self.listen about frames bodies
        = (.probe :: (self.listenPolling bodies).1, (self.listenPolling bodies).2))
  ∧ (∀ rest, self.listenPolling (Json.arr [] :: rest)
      = (.pollGet :: .sleep self.intervalOf :: (self.listenPolling rest).1,
         (self.listenPolling rest).2))
  ∧ (∀ b packets evss rest, b.pyIter = .ok packets →
      List.Forall₂ (fun p evs => self.parse_packet p = .ok evs) packets evss →
      self.listenPolling (b :: rest)
        = (.pollGet :: evss.flatten.map TraceItem.emit
             ++ .sleep self.intervalOf :: (self.listenPolling rest).1,
           (self.listenPolling rest).2))
  ∧ (self.pollInterval = none → self.intervalOf = 10) := by
  rcases hs : self.listenStreaming frames with ⟨st, se⟩
  rcases hp : self.listenPolling bodies with ⟨pt, pe⟩
  have hnsp := listenStreaming_no_probe self frames
  have hnpp := listenPolling_no_probe self bodies
  rw [hs] at hnsp
  rw [hp] at hnpp
  refine ⟨⟨?_, ?_⟩, ?_, ?_, ?_, ?_, ?_, ?_⟩
  · cases hm : selectMode about with
    | error e => simp [ConnectorSignal.listen, hm]
    | ok m => cases m <;> simp [ConnectorSignal.listen, hm, hs, hp]
  · cases hm : selectMode about with
    | error e => simp [ConnectorSignal.listen, hm, List.countP_cons, TraceItem.isProbe]
    | ok m =>
      cases m <;>
        simp [ConnectorSignal.listen, hm, hs, hp, List.countP_cons, TraceItem.isProbe,
          countP_probe_zero st hnsp, countP_probe_zero pt hnpp]
  · unfold selectMode
    cases hg : about.pyGet "mode" with
    | error e => simp
    | ok m =>
      constructor
      · intro hok
        have : jsonStrEq m "json-rpc" = true := by
          by_contra hne
          simp only [Bool.not_eq_true] at hne
          simp [hne] at hok
        rw [(jsonStrEq_iff m "json-rpc").mp this]
      · intro hok
        have hm : m = .str "json-rpc" := by simpa using hok
        simp [hm, jsonStrEq]
  · intro hmode
    simp [ConnectorSignal.listen, hmode, hs]
  · intro hmode
    simp [ConnectorSignal.listen, hmode, hp]
  · intro rest
    rcases hr : self.listenPolling rest with ⟨t2, e2⟩
    simp [ConnectorSignal.listenPolling, Json.pyIter, ConnectorSignal.parsePackets, hr]
  · intro b packets evss rest hiter hall
    have hpp := parsePackets_all_ok self packets evss hall
    rcases hr : self.listenPolling rest with ⟨t2, e2⟩
    simp [ConnectorSignal.listenPolling, hiter, hpp, hr]
  · intro hnone
    simp [ConnectorSignal.intervalOf, hnone]
